import Mathlib

/-
Verification of the ISO9660 filesystem layer of the PSBW CD-ROM library
(src/src/filesystem.c together with the declarations in src/inc/cdrom.h).

The embedding is byte-level: disc sectors and the cached buffers are
functions from byte offsets to byte values, exactly as the C code walks
raw `uint8_t` buffers with pointer arithmetic.  The CD-ROM command layer
(CdControl / CdReadRetry / CdReadSync and friends, which live outside the
filesystem source) is abstracted into explicit per-call drive records that
say whether each seek / read step succeeds and what data the disc holds;
the filesystem code under verification is translated statement by
statement against those oracles.

C strings are byte lists without the terminating NUL; `cstrTrunc`
truncates a raw byte region at the first NUL, which is exactly what the
C code's `strcmp` on a NUL-terminated `namebuff` observes.

Bounded loops in the C source are given an explicit structural fuel
argument so that every definition is executable by the kernel; each
wrapper instantiates the fuel with a bound that provably dominates the
number of iterations the C loop can perform (each path-table scan step
advances by at least 8 bytes, each directory scan step strictly advances
the cursor or the C code itself loops forever, which the model reports
as `none`).
-/

namespace PSBW

/-! ## Position codec -/

/-- `itob` macro from src/inc/cdrom.h: decimal (0-99) to BCD. -/
def itob (i : Nat) : Nat := (i / 10 * 16) ||| (i % 10)

/-- `btoi` macro from src/inc/cdrom.h: BCD to decimal. -/
def btoi (b : Nat) : Nat := b / 16 * 10 + b % 16

/-- `CdlLOC` from src/inc/cdrom.h: BCD minute/second/sector coordinates. -/
structure CdlLOC where
  minute : Nat
  second : Nat
  sector : Nat
  track : Nat
deriving DecidableEq

/-- Modelled from the spec: the body of `CdIntToPos` is not under src (only
its declaration in src/inc/cdrom.h is).  Spec 4.1: add the 150-sector
lead-in, decompose into minutes of 75*60 = 4500 sectors, seconds of 75
sectors and a remainder, each encoded as BCD with `itob`. -/
def CdIntToPos (i : Nat) : CdlLOC :=
  { minute := itob ((i + 150) / 4500)
    second := itob ((i + 150) / 75 % 60)
    sector := itob ((i + 150) % 75)
    track := 0 }

/-- Modelled from the spec: the body of `CdPosToInt` is not under src (only
its declaration in src/inc/cdrom.h is).  Spec 4.1: decode the BCD fields
with `btoi`, recompose, subtract the 150-sector lead-in. -/
def CdPosToInt (p : CdlLOC) : Int :=
  ((btoi p.minute * 4500 + btoi p.second * 75 + btoi p.sector : Nat) : Int) - 150

/-! ## Byte buffers and on-disc layout -/

/-- A raw byte buffer (or a whole 2048-byte sector), as a function from
byte offset to byte value. -/
abbrev Buff := Nat → Nat

/-- Little-endian 16-bit read, as the C code's access to packed `uint16_t`. -/
def le16 (b : Buff) (o : Nat) : Nat := b o + 256 * b (o + 1)

/-- Little-endian 32-bit read, as the C code's access to the `.lsb` half of
the both-endian ISO9660 fields. -/
def le32 (b : Buff) (o : Nat) : Nat :=
  b o + 256 * b (o + 1) + 65536 * b (o + 2) + 16777216 * b (o + 3)

/-- The flat buffer produced by reading consecutive 2048-byte sectors
starting at sector `s` of disc `disc`. -/
def readSectors (disc : Int → Buff) (s : Int) : Buff :=
  fun i => disc (s + (Int.ofNat (i / 2048))) (i % 2048)

/-- Modelled from the spec: the struct layouts of `ISO_DESCRIPTOR`,
`ISO_PATHTABLE_ENTRY` and `ISO_DIR_ENTRY` live in psbw/filesystem.h, which
is not under src; the spec fixes them to the standard ISO9660 on-disk
layout (length-prefixed variable records, little-endian halves of the
both-endian fields).  A volume descriptor carries the 5-byte magic
"CD001" (bytes 67,68,48,48,49) at offset 1. -/
def descMagicOk (b : Buff) : Bool :=
  b 1 == 67 && b 2 == 68 && b 3 == 48 && b 4 == 48 && b 5 == 49

/-- Modelled from the spec: path-table byte length, `pathTableSize.lsb` of
the standard ISO9660 volume descriptor (offset 132). -/
def descPathTableSize (b : Buff) : Nat := le32 b 132

/-- Modelled from the spec: starting sector of the first little-endian path
table, `pathTable1Offs` of the standard ISO9660 volume descriptor
(offset 140). -/
def descPathTable1Offs (b : Buff) : Nat := le32 b 140

/-- Modelled from the spec: `sizeof(ISO_PATHTABLE_ENTRY)` = 8 — name
length, extended-attribute length, 4-byte directory sector, 2-byte parent
index; the name bytes follow at offset 8. -/
def sizeofPathtableEntry : Nat := 8

/-- Modelled from the spec: `sizeof(ISO_DIR_ENTRY)` = 33 — the standard
ISO9660 directory-record header; the identifier bytes follow at
offset 33.  Offsets used by the code: entry length at 0, entry sector
(`entryOffs.lsb`) at 2, entry byte size (`entrySize.lsb`) at 10, flags at
25, identifier length at 32. -/
def sizeofDirEntry : Nat := 33

/-- The bytes `b o, b (o+1), ..., b (o+n-1)`: a raw `memcpy` of `n` bytes. -/
def extractRaw (b : Buff) (o n : Nat) : List Nat :=
  (List.range n).map fun k => b (o + k)

/-- C-string view of a byte list: everything before the first NUL.  This is
what `strcmp`/`strcpy` observe of a NUL-terminated buffer. -/
def cstrTrunc (l : List Nat) : List Nat := l.takeWhile fun c => c != 0

/-! ## Filesystem state and drive oracles -/

/-- `CdlIsoError` from src/inc/cdrom.h. -/
inductive CdlIsoError where
  | okay
  | seekError
  | readError
  | invalidFs
  | lidOpen
deriving DecidableEq

/-- The module-level state of src/src/filesystem.c:
`_cd_media_changed` (extern, set by the platform / CdLoadSession),
`_cd_iso_last_dir_lba`, `_cd_iso_descriptor_buff`,
`_cd_iso_pathtable_buff`, `_cd_iso_directory_buff`,
`_cd_iso_directory_len` and `_cd_iso_error`. -/
structure FsState where
  mediaChanged : Bool
  lastDirLba : Nat
  descriptorBuff : Buff
  pathtableBuff : Option Buff
  directoryBuff : Option Buff
  directoryLen : Nat
  isoError : CdlIsoError

/-- Oracle for one `_CdReadIsoDescriptor` invocation.  `shellOpenSticky` is
the CdlStatShellOpen bit observed after the first CdlNop,
`lidStillOpen` the bit observed after the second CdlNop (issued only when
the first showed the bit set).  `seekDescOk` is the result of the
CdlSetloc before the descriptor read; `readDescOk` / `readPathOk` say
whether the corresponding `CdReadRetry`+`CdReadSync` batch succeeded
(the second CdlSetloc, before the path table, has its result ignored by
the C code and so does not appear).  `disc` maps a sector number to its
2048 data bytes. -/
structure DescDrive where
  shellOpenSticky : Bool
  lidStillOpen : Bool
  seekDescOk : Bool
  readDescOk : Bool
  readPathOk : Bool
  disc : Int → Buff

/-- Result of `_CdReadIsoDescriptor`: the new state, the C return value,
and ghost counters for the number of descriptor-sector read operations
and path-table batch read operations issued (each `CdReadRetry` call
counts once). -/
structure DescOut where
  st : FsState
  ret : Int
  descReads : Nat
  ptReads : Nat

/-- `_CdReadIsoDescriptor` (src/src/filesystem.c:36-135).  Lid check first,
but only when the media-changed flag is clear; a persisting shell-open
bit fails with `lidOpen`, a cleared one sets the media-changed flag.  If
the flag is (still) clear the call is a cache hit.  Otherwise: seek to
sector 16+sessionOffs, read the descriptor, check the magic, reallocate
and read the whole path table, reset the directory marker and clear the
flag.  Buffer contents after a failed read are device garbage in the C
code; no theorem below relies on them. -/
def _CdReadIsoDescriptor (drv : DescDrive) (st0 : FsState) (sessionOffs : Int) : DescOut :=
  if st0.mediaChanged = false ∧ drv.shellOpenSticky = true ∧ drv.lidStillOpen = true then
    ⟨{ st0 with isoError := .lidOpen }, -1, 0, 0⟩
  else
    let st := if st0.mediaChanged = false ∧ drv.shellOpenSticky = true then
                { st0 with mediaChanged := true }
              else st0
    if st.mediaChanged = false then ⟨st, 0, 0, 0⟩
    else if drv.seekDescOk = false then ⟨{ st with isoError := .seekError }, -1, 0, 0⟩
    else
      let descBuff := readSectors drv.disc (16 + sessionOffs)
      let st1 := { st with descriptorBuff := descBuff }
      if drv.readDescOk = false then ⟨{ st1 with isoError := .readError }, -1, 1, 0⟩
      else if descMagicOk descBuff = false then ⟨{ st1 with isoError := .invalidFs }, -1, 1, 0⟩
      else
        let ptBuff := readSectors drv.disc (Int.ofNat (descPathTable1Offs descBuff))
        let st2 := { st1 with pathtableBuff := some ptBuff }
        if drv.readPathOk = false then ⟨{ st2 with isoError := .readError }, -1, 1, 1⟩
        else
          ⟨{ st2 with lastDirLba := 0, isoError := .okay, mediaChanged := false }, 0, 1, 1⟩

/-- Oracle for one `_CdReadIsoDirectory` invocation: results of the first
seek, first (single-sector) read, and — when the record spans more than
one sector — the second seek and the full multi-sector read. -/
structure DirDrive where
  seek1Ok : Bool
  read1Ok : Bool
  seek2Ok : Bool
  read2Ok : Bool
  disc : Int → Buff

/-- Result of `_CdReadIsoDirectory`: new state, C return value, and a ghost
counter of read operations issued (0 on a cache hit). -/
structure DirOut where
  st : FsState
  ret : Int
  reads : Nat

/-- `_CdReadIsoDirectory` (src/src/filesystem.c:137-213).  Cache hit when
`lba` equals `_cd_iso_last_dir_lba`; otherwise seek, read the first
sector, take the record's declared byte length from the first entry's
`entrySize.lsb`, and when it exceeds one sector re-seek and read the
full record.  The marker `lastDirLba` is updated only on full success. -/
def _CdReadIsoDirectory (drv : DirDrive) (st : FsState) (lba : Nat) : DirOut :=
  if lba = st.lastDirLba then ⟨st, 0, 0⟩
  else if drv.seek1Ok = false then ⟨{ st with isoError := .seekError }, -1, 0⟩
  else
    let buff := readSectors drv.disc (Int.ofNat lba)
    let st1 := { st with directoryBuff := some buff }
    if drv.read1Ok = false then ⟨{ st1 with isoError := .readError }, -1, 1⟩
    else
      let dirLen := le32 buff 10
      let st2 := { st1 with directoryLen := dirLen }
      if 2048 < dirLen then
        if drv.seek2Ok = false then ⟨{ st2 with isoError := .seekError }, -1, 1⟩
        else if drv.read2Ok = false then ⟨{ st2 with isoError := .readError }, -1, 2⟩
        else ⟨{ st2 with lastDirLba := lba, isoError := .okay }, 0, 2⟩
      else ⟨{ st2 with lastDirLba := lba, isoError := .okay }, 0, 1⟩

/-! ## Path-table scanning -/

/-- The header fields of one `ISO_PATHTABLE_ENTRY` (what `*tbl = *tbl_entry`
copies). -/
structure PtEntry where
  nameLength : Nat
  dirOffs : Nat
  dirLevel : Nat
deriving DecidableEq

/-- Loop body of `get_pathtable_entry` (src/src/filesystem.c:299-349).
Walks the path table from byte offset `pos` with zero-based counter `i`
while the offset is below the declared table size; the requested
1-indexed `entry` matches when `i == entry - 1`, in which case the entry
header and its raw name bytes are produced with C return value 0.  After
the loop a non-positive `entry` returns `i + 1`, otherwise -1.
`fuel` bounds the recursion structurally; every step advances `pos` by
`8 + 2*((nameLength+1)/2) >= 8` bytes, so `fuel = size` always suffices
(the exhaustion value -2 is unreachable then, see `ptScanAux_count_aux`). -/
def ptScanAux (b : Buff) (size : Nat) (entry : Int) :
    Nat → Nat → Nat → Int × Option (PtEntry × List Nat)
  | pos, i, 0 =>
    if pos < size then (-2, none)
    else if entry ≤ 0 then ((i : Int) + 1, none)
    else (-1, none)
  | pos, i, fuel + 1 =>
    if pos < size then
      if (i : Int) = entry - 1 then
        (0, some (⟨b pos, le32 b (pos + 2), le16 b (pos + 6)⟩,
                  extractRaw b (pos + sizeofPathtableEntry) (b pos)))
      else
        ptScanAux b size entry (pos + sizeofPathtableEntry + 2 * ((b pos + 1) / 2)) (i + 1) fuel
    else if entry ≤ 0 then ((i : Int) + 1, none)
    else (-1, none)

/-- The cached path-table buffer (`_cd_iso_pathtable_buff`); the C code
dereferences it unconditionally, the model substitutes a zero buffer when
it was never allocated. -/
def ptBuffOf (st : FsState) : Buff := st.pathtableBuff.getD fun _ => 0

/-- The declared path-table byte length, read from the cached descriptor. -/
def ptSizeOf (st : FsState) : Nat := descPathTableSize st.descriptorBuff

/-- `get_pathtable_entry(entry, tbl, namebuff)`: C return value, plus the
entry header and raw name bytes when an entry matched. -/
def get_pathtable_entry (st : FsState) (entry : Int) : Int × Option (PtEntry × List Nat) :=
  ptScanAux (ptBuffOf st) (ptSizeOf st) entry 0 0 (ptSizeOf st)

/-- The byte offsets of the entries present in a path table of declared
size `size`: the canonical parse walk, used to state what "the total
number of entries" means independently of `get_pathtable_entry`'s
return-value convention. -/
def ptOffsets (b : Buff) (size : Nat) : Nat → Nat → List Nat
  | _, 0 => []
  | pos, fuel + 1 =>
    if pos < size then
      pos :: ptOffsets b size (pos + sizeofPathtableEntry + 2 * ((b pos + 1) / 2)) fuel
    else []

/-- Offsets of all path-table entries in the cached table. -/
def pathTableEntryOffsets (st : FsState) : List Nat :=
  ptOffsets (ptBuffOf st) (ptSizeOf st) 0 (ptSizeOf st)

/-- `resolve_pathtable_path` loop (src/src/filesystem.c:351-376): fetch the
entry, prepend a backslash (92) and the raw name bytes in front of the
accumulated suffix, and continue with the parent index while it exceeds
1.  `cap` models the space remaining in the 128-byte right-to-left
`tpath_rbuff` (each iteration consumes nameLength+1 bytes; the C code
overflows the buffer — undefined behavior — when it runs out, which the
model reports as `none`); `fuel` is structural and dominated by `cap`
since every iteration consumes at least one byte of capacity. -/
def resolveAux (st : FsState) : Int → List Nat → Nat → Nat → Option (List Nat)
  | _, _, _, 0 => none
  | entry, acc, cap, fuel + 1 =>
    let g := get_pathtable_entry st entry
    if g.1 ≠ 0 then none
    else
      match g.2 with
      | none => none
      | some (e, raw) =>
        if e.nameLength + 1 ≤ cap then
          if 1 < (e.dirLevel : Int) then
            resolveAux st (e.dirLevel : Int) (92 :: (raw ++ acc)) (cap - (e.nameLength + 1)) fuel
          else some (92 :: (raw ++ acc))
        else none

/-- `resolve_pathtable_path(entry, rbuff)` with the 128-byte scratch buffer
(127 bytes of capacity below the initial NUL terminator). -/
def resolve_pathtable_path (st : FsState) (entry : Int) : Option (List Nat) :=
  resolveAux st entry [] 127 127

/-! ## Pathname splitting -/

/-- `IS_PATH_SEP`: '/' (47) or '\' (92). -/
def isPathSep (c : Nat) : Bool := c == 47 || c == 92

/-- Index of the last path separator of the filename, as computed by the
scanning loops of `get_pathname` / `get_filename`. -/
def lastSepIdx (s : List Nat) : Option Nat :=
  (List.range s.length).foldl
    (fun acc i => if isPathSep (s.getD i 0) then some i else acc) none

/-- `get_pathname` (src/src/filesystem.c:424-442): the directory prefix of
`filename` up to (excluding) the last separator, copied verbatim.  When
there is no separator, or the only separator is the leading character,
the path becomes just "\" (92) and the C function returns NULL (the
Bool component, used only for logging by the caller). -/
def get_pathname (filename : List Nat) : List Nat × Bool :=
  match lastSepIdx filename with
  | none => ([92], false)
  | some 0 => ([92], false)
  | some k => (filename.take k, true)

/-- `get_filename` (src/src/filesystem.c:444-464): everything after the
last separator (the whole string when there is none). -/
def get_filename (filename : List Nat) : List Nat :=
  match lastSepIdx filename with
  | none => filename
  | some 0 => filename.drop 1
  | some k => filename.drop (k + 1)

/-! ## Directory-record scanning and the public file/directory API -/

/-- The fields of one `ISO_DIR_ENTRY` header used by the code (what
`*dirent = *dir_entry` copies, restricted to the consumed fields). -/
structure DirEnt where
  entryLength : Nat
  entryOffs : Nat
  entrySize : Nat
  flags : Nat
  identifierLen : Nat
deriving DecidableEq

/-- `CdlFILE` from src/inc/cdrom.h. -/
structure CdlFILE where
  pos : CdlLOC
  size : Nat
  name : List Nat
deriving DecidableEq

/-- Loop of `find_dir_entry` (src/src/filesystem.c:378-422): scan the
cached directory record while the cursor is below the declared length;
an entry whose flags bit 1 is clear and whose NUL-truncated identifier
equals `name` is returned.  Otherwise advance by the entry length and,
when the byte at the new cursor is zero (sector padding), snap the
cursor up to the next 2048-byte boundary.  When the cursor fails to
advance (a zero-length entry at a sector boundary) the C loop never
terminates; the model returns `none` for that.  `some none` is the C
"not found" (-1).  `fuel` is structural; the wrapper passes `len + 1`,
which dominates any terminating run since the cursor strictly increases
while below `len`. -/
def findDirEntryAux (b : Buff) (len : Nat) (name : List Nat) :
    Nat → Nat → Option (Option DirEnt)
  | _, 0 => none
  | pos, fuel + 1 =>
    if pos < len then
      if b (pos + 25) &&& 2 = 0 ∧
          cstrTrunc (extractRaw b (pos + sizeofDirEntry) (b (pos + 32))) = name then
        some (some ⟨b pos, le32 b (pos + 2), le32 b (pos + 10), b (pos + 25), b (pos + 32)⟩)
      else
        let p1 := pos + b pos
        let p2 := if b p1 = 0 then ((p1 + 2047) >>> 11) <<< 11 else p1
        if p2 ≤ pos then none
        else findDirEntryAux b len name p2 fuel
    else some none

/-- `find_dir_entry(name, dirent)` against the shared directory cache. -/
def find_dir_entry (st : FsState) (name : List Nat) : Option (Option DirEnt) :=
  findDirEntryAux (st.directoryBuff.getD fun _ => 0) st.directoryLen name 0
    (st.directoryLen + 1)

/-- The directory-search loop shared by `CdSearchFile` and `CdOpenDir`
(src/src/filesystem.c:516-530 and 599-613): for `i` from 1 while
`i < num_dirs`, resolve the path of entry `i` and compare it as a C
string with `path`; the first match is returned, 0 when none matches.
`fuel` is structural; the callers pass `num.toNat + 1`, which dominates
the loop's iteration count. -/
def searchLoop (st : FsState) (path : List Nat) : Nat → Int → Nat → Nat
  | _, _, 0 => 0
  | i, num, fuel + 1 =>
    if (i : Int) < num then
      match resolve_pathtable_path st i with
      | some r => if cstrTrunc r = cstrTrunc path then i else searchLoop st path (i + 1) num fuel
      | none => searchLoop st path (i + 1) num fuel
    else 0

/-- `CdSearchFile` (src/src/filesystem.c:466-569).  Loads the descriptor
cache, counts the path-table entries, splits the caller's path, finds
the containing directory by comparing reconstructed path-table paths,
loads its record (return value ignored, as in the source), builds the
search filename (";1" = bytes 59,49 appended when no ';' is present) and
scans the directory record.  The outer `Option` is `none` exactly when
the C code does not return (the `find_dir_entry` lockup); otherwise the
result is the final state and the `CdlFILE` produced (`none` = NULL). -/
def CdSearchFile (drvD : DescDrive) (drvDir : DirDrive) (st0 : FsState)
    (filename : List Nat) : Option (FsState × Option CdlFILE) :=
  let o := _CdReadIsoDescriptor drvD st0 0
  if o.ret ≠ 0 then some (o.st, none)
  else
    let st := o.st
    let numDirs := (get_pathtable_entry st 0).1
    let searchPath := (get_pathname filename).1
    let foundDir := searchLoop st searchPath 1 numDirs (numDirs.toNat + 1)
    if foundDir = 0 then some (st, none)
    else
      match (get_pathtable_entry st (foundDir : Int)).2 with
      | none => none
      | some (tbl, _) =>
        let od := _CdReadIsoDirectory drvDir st tbl.dirOffs
        let st1 := od.st
        let fname0 := get_filename filename
        let fname := if fname0.contains 59 then fname0 else fname0 ++ [59, 49]
        match find_dir_entry st1 fname with
        | none => none
        | some none => some (st1, none)
        | some (some de) =>
          some (st1, some ⟨CdIntToPos de.entryOffs, de.entrySize, fname⟩)

/-- `CdlDIR_INT` (src/src/filesystem.c:19-24): the directory iteration
cursor — byte position, snapshot of the record length at open time, and
a private copy of the record buffer. -/
structure CdlDIR_INT where
  _pos : Nat
  _len : Nat
  _dir : Buff

/-- `CdOpenDir` (src/src/filesystem.c:571-653).  Same descriptor load and
path search as `CdSearchFile` (here the caller's `path` is compared
directly), then the directory record is loaded (return value ignored, as
in the source) and a cursor is built with a private copy of the record
buffer; for the root directory (entry 1) the first two entries are
skipped. -/
def CdOpenDir (drvD : DescDrive) (drvDir : DirDrive) (st0 : FsState)
    (path : List Nat) : FsState × Option CdlDIR_INT :=
  let o := _CdReadIsoDescriptor drvD st0 0
  if o.ret ≠ 0 then (o.st, none)
  else
    let st := o.st
    let numDirs := (get_pathtable_entry st 0).1
    let foundDir := searchLoop st path 1 numDirs (numDirs.toNat + 1)
    if foundDir = 0 then (st, none)
    else
      match (get_pathtable_entry st (foundDir : Int)).2 with
      | none => (st, none)
      | some (tbl, _) =>
        let od := _CdReadIsoDirectory drvDir st tbl.dirOffs
        let st1 := od.st
        let buf := st1.directoryBuff.getD fun _ => 0
        let d0 : CdlDIR_INT := ⟨0, st1.directoryLen, buf⟩
        let d :=
          if foundDir = 1 then
            let p1 := 0 + buf 0
            { d0 with _pos := p1 + buf p1 }
          else d0
        (st1, some d)

/-- `CdReadDir` (src/src/filesystem.c:655-710).  End of iteration (return
0, nothing written to the caller's `CdlFILE`) when the cursor has
reached `_cd_iso_directory_len` — note: the shared cache's length, not
the cursor's `_len` snapshot — or when the byte at the cursor is zero (a
premature NULL entry, tolerated as an early terminator).  Otherwise one
entry is decoded ("." / ".." synthesized when the first identifier byte
is 0 / 1), the cursor advances by the entry length and snaps to the next
2048-byte boundary over zero padding, and 1 is returned.  The function
reads but never writes the filesystem state, hence the signature. -/
def CdReadDir (st : FsState) (d : CdlDIR_INT) (file : CdlFILE) :
    CdlDIR_INT × CdlFILE × Int :=
  if st.directoryLen ≤ d._pos then (d, file, 0)
  else if d._dir d._pos = 0 then (d, file, 0)
  else
    let pos := d._pos
    let name :=
      if d._dir (pos + sizeofDirEntry) = 0 then [46]
      else if d._dir (pos + sizeofDirEntry) = 1 then [46, 46]
      else cstrTrunc (extractRaw d._dir (pos + sizeofDirEntry) (d._dir (pos + 32)))
    let f : CdlFILE := ⟨CdIntToPos (le32 d._dir (pos + 2)), le32 d._dir (pos + 10), name⟩
    let p1 := pos + d._dir pos
    let p2 := if d._dir p1 = 0 then ((p1 + 2047) >>> 11) <<< 11 else p1
    ({ d with _pos := p2 }, f, 1)

/-- `CdCloseDir` (src/src/filesystem.c:712-723).  A null handle returns
immediately; otherwise the record copy and the cursor are freed.  The
second component is a ghost counter of `free` calls issued; no
filesystem state is touched on either path. -/
def CdCloseDir (st : FsState) (dir : Option CdlDIR_INT) : FsState × Nat :=
  match dir with
  | none => (st, 0)
  | some _ => (st, 2)

/-! ## Session loader -/

/-- The `_scan_callback` match (src/src/filesystem.c:769-777): byte 0 is
the volume-descriptor type marker 1 and bytes 1..5 are "CD001". -/
def isVolumeDescriptorSector (b : Buff) : Bool :=
  b 0 == 1 && b 1 == 67 && b 2 == 68 && b 3 == 48 && b 4 == 48 && b 5 == 49

/-- Oracle for one `CdLoadSession` invocation.  `seekDiskError`: the
CdlSetsession/CdSync step reported CdlDiskError.  `scanSectors k` is the
k-th sector delivered to the data-ready callback; `scanErrAt = some k`
injects a CdlDiskError event in place of the k-th delivery.  `locAfter`
is the CdlGetlocL response once the drive has stopped, and `descDrive`
drives the final `_CdReadIsoDescriptor` call. -/
structure SessionDrive where
  seekDiskError : Bool
  scanSectors : Nat → Buff
  scanErrAt : Option Nat
  locAfter : CdlLOC
  descDrive : DescDrive

/-- The `_scan_callback` loop (src/src/filesystem.c:763-793), folded over
the delivered sectors: a disk-error event completes the scan without
success; a sector matching the volume-descriptor magic completes it with
success; otherwise the counter increments and the scan gives up once it
reaches 512 sectors.  Returns `_ses_scanfound`.  `fuel` is structural;
the caller passes 512, which dominates the loop (the counter stops at
512). -/
def scanAux (sectors : Nat → Buff) (errAt : Option Nat) : Nat → Nat → Bool
  | _, 0 => false
  | count, fuel + 1 =>
    if errAt = some count then false
    else if isVolumeDescriptorSector (sectors count) = true then true
    else if 512 ≤ count + 1 then false
    else scanAux sectors errAt (count + 1) fuel

/-- `CdLoadSession` (src/src/filesystem.c:795-883).  A session-seek disk
error restarts the drive and returns -1 (note: without touching
`_cd_iso_error`, as in the source).  Otherwise the descriptor scan runs;
when it finds nothing the error code is set to `invalidFs` and -1 is
returned with every cache untouched.  On success the located position
minus the fixed 17-sector correction becomes the new session offset, the
media-changed flag is forced, and the volume/path-table cache is
re-primed via `_CdReadIsoDescriptor`. -/
def CdLoadSession (drv : SessionDrive) (st : FsState) (session : Int) : FsState × Int :=
  if drv.seekDiskError = true then (st, -1)
  else if scanAux drv.scanSectors drv.scanErrAt 0 512 = false then
    ({ st with isoError := .invalidFs }, -1)
  else
    let st1 := { st with mediaChanged := true }
    let i := CdPosToInt drv.locAfter - 17
    let o := _CdReadIsoDescriptor drv.descDrive st1 i
    if o.ret ≠ 0 then (o.st, -1) else (o.st, 0)

/-! ## Concrete discs and states for the scenario claims

`discC1` realizes the spec's scenario disc: volume descriptor at
sector 16, path table at sector 18 holding the root entry and the single
non-root entry "DATA" (directory record at sector 20), and DATA's record
holding ".", ".." and the file "LEVEL1.BIN;1" at sector 25 with size
4096.  `discA` extends it with a second directory "SUB" (record at
sector 22, declared length 89) containing "X.BIN;1", used to repoint the
shared directory cache while a cursor on DATA is live. -/

/-- The all-zero buffer / sector. -/
def zeroBuff : Buff := fun _ => 0

/-- Volume descriptor sector: type 1, magic "CD001", path-table size 22,
path table at sector 18. -/
def pvdC1 : Buff := fun i =>
  if i = 0 then 1 else if i = 1 then 67 else if i = 2 then 68
  else if i = 3 then 48 else if i = 4 then 48 else if i = 5 then 49
  else if i = 132 then 22 else if i = 140 then 18 else 0

/-- Same descriptor with path-table size 34 (root + DATA + SUB). -/
def pvdA : Buff := fun i =>
  if i = 0 then 1 else if i = 1 then 67 else if i = 2 then 68
  else if i = 3 then 48 else if i = 4 then 48 else if i = 5 then 49
  else if i = 132 then 34 else if i = 140 then 18 else 0

/-- Path table with the root entry (name length 1, name byte 0, record at
sector 21, parent 1) and "DATA" (record at sector 20, parent 1). -/
def ptSectorC1 : Buff := fun i =>
  if i = 0 then 1 else if i = 2 then 21 else if i = 6 then 1
  else if i = 10 then 4 else if i = 12 then 20 else if i = 16 then 1
  else if i = 18 then 68 else if i = 19 then 65 else if i = 20 then 84
  else if i = 21 then 65 else 0

/-- Path table with root, "DATA" (sector 20) and "SUB" (sector 22). -/
def ptSectorA : Buff := fun i =>
  if i = 0 then 1 else if i = 2 then 21 else if i = 6 then 1
  else if i = 10 then 4 else if i = 12 then 20 else if i = 16 then 1
  else if i = 18 then 68 else if i = 19 then 65 else if i = 20 then 84
  else if i = 21 then 65
  else if i = 22 then 3 else if i = 24 then 22 else if i = 28 then 1
  else if i = 30 then 83 else if i = 31 then 85 else if i = 32 then 66
  else 0

/-- Directory record of DATA (declared length 144): "." and ".."
(flags 2), then "LEVEL1.BIN;1" at sector 25 with size 4096 (bytes
106/107 encode 0x1000), entry length 46, identifier length 12. -/
def dirASector : Buff := fun i =>
  if i = 0 then 48 else if i = 2 then 20 else if i = 10 then 144
  else if i = 25 then 2 else if i = 32 then 1
  else if i = 48 then 48 else if i = 50 then 20 else if i = 58 then 144
  else if i = 73 then 2 else if i = 80 then 1 else if i = 81 then 1
  else if i = 96 then 46 else if i = 98 then 25 else if i = 107 then 16
  else if i = 128 then 12
  else if i = 129 then 76 else if i = 130 then 69 else if i = 131 then 86
  else if i = 132 then 69 else if i = 133 then 76 else if i = 134 then 49
  else if i = 135 then 46 else if i = 136 then 66 else if i = 137 then 73
  else if i = 138 then 78 else if i = 139 then 59 else if i = 140 then 49
  else 0

/-- Directory record of SUB (declared length 89): "." (flags 2), then
"X.BIN;1" at sector 30 with size 512 (byte 59 encodes 0x200), entry
length 40, identifier length 7. -/
def dirBSector : Buff := fun i =>
  if i = 0 then 48 else if i = 2 then 22 else if i = 10 then 89
  else if i = 25 then 2 else if i = 32 then 1
  else if i = 48 then 40 else if i = 50 then 30 else if i = 59 then 2
  else if i = 80 then 7
  else if i = 81 then 88 else if i = 82 then 46 else if i = 83 then 66
  else if i = 84 then 73 else if i = 85 then 78 else if i = 86 then 59
  else if i = 87 then 49
  else 0

/-- The scenario disc of the spec (single non-root path-table entry). -/
def discC1 : Int → Buff := fun s =>
  if s = 16 then pvdC1 else if s = 18 then ptSectorC1
  else if s = 20 then dirASector else zeroBuff

/-- The two-directory disc used to exercise cache repointing. -/
def discA : Int → Buff := fun s =>
  if s = 16 then pvdA else if s = 18 then ptSectorA
  else if s = 20 then dirASector else if s = 22 then dirBSector else zeroBuff

/-- Fresh state after `CdInit`: media-changed flag raised, no caches. -/
def st0 : FsState := ⟨true, 0, zeroBuff, none, none, 0, .okay⟩

/-- Happy-path drives over the two discs. -/
def drvDc1 : DescDrive := ⟨false, false, true, true, true, discC1⟩

def drvDirc1 : DirDrive := ⟨true, true, true, true, discC1⟩

def drvDa : DescDrive := ⟨false, false, true, true, true, discA⟩

def drvDira : DirDrive := ⟨true, true, true, true, discA⟩

/-- "DATA/LEVEL1.BIN" — the claim C1 input. -/
def nameC1slash : List Nat := [68, 65, 84, 65, 47, 76, 69, 86, 69, 76, 49, 46, 66, 73, 78]

/-- "\DATA\LEVEL1.BIN". -/
def nameC1back : List Nat := [92, 68, 65, 84, 65, 92, 76, 69, 86, 69, 76, 49, 46, 66, 73, 78]

/-- "LEVEL1.BIN;1". -/
def nameLEVEL1v : List Nat := [76, 69, 86, 69, 76, 49, 46, 66, 73, 78, 59, 49]

/-- "\DATA". -/
def pathDATA : List Nat := [92, 68, 65, 84, 65]

/-- "\SUB\X.BIN". -/
def nameSUBX : List Nat := [92, 83, 85, 66, 92, 88, 46, 66, 73, 78]

/-- "X.BIN;1". -/
def fileXname : List Nat := [88, 46, 66, 73, 78, 59, 49]

/-- A junk `CdlFILE` standing for the caller's uninitialized struct. -/
def fJunk : CdlFILE := ⟨⟨0, 0, 0, 0⟩, 0, []⟩

/-- A junk cursor (used only as `Option.getD` default). -/
def junkCursor : CdlDIR_INT := ⟨0, 0, zeroBuff⟩

/-- State after `CdOpenDir` on "\DATA" over `discA`. -/
def stOpen : FsState := (CdOpenDir drvDa drvDira st0 pathDATA).1

/-- The cursor returned by that `CdOpenDir`. -/
def curOpen : CdlDIR_INT := ((CdOpenDir drvDa drvDira st0 pathDATA).2).getD junkCursor

/-- The cursor after reading "." from it. -/
def cur1 : CdlDIR_INT := (CdReadDir stOpen curOpen fJunk).1

/-- The cursor after also reading ".." (byte position 96). -/
def cur2 : CdlDIR_INT := (CdReadDir stOpen cur1 fJunk).1

/-- State after the intervening `CdSearchFile` for "\SUB\X.BIN", which
repoints the shared directory cache to SUB. -/
def stRepoint : FsState := ((CdSearchFile drvDa drvDira stOpen nameSUBX).getD (st0, none)).1

/-- A state with directory 100 cached, used to probe the failure behavior
of the directory loader. -/
def stCached : FsState := ⟨false, 100, zeroBuff, some zeroBuff, some zeroBuff, 144, .okay⟩

/-- A directory drive whose initial seek fails. -/
def drvDirSeekFail : DirDrive := ⟨false, true, true, true, discA⟩

/-- A descriptor drive reporting the lid open across both no-ops. -/
def drvLidOpen : DescDrive := ⟨true, true, true, true, true, discC1⟩

/-- A state with the caches warm and the media-changed flag clear. -/
def stClear : FsState := ⟨false, 20, pvdC1, some ptSectorC1, some dirASector, 144, .okay⟩

/-- A session drive whose scan only ever sees zero-filled sectors. -/
def sesDrv : SessionDrive := ⟨false, fun _ => zeroBuff, none, ⟨0, 0, 0, 0⟩, drvDa⟩

/-- A state and cursors for the end-of-directory witness. -/
def stDirTen : FsState := ⟨false, 20, zeroBuff, none, some zeroBuff, 10, .okay⟩

def dAtEnd : CdlDIR_INT := ⟨10, 144, zeroBuff⟩

def dAtZero : CdlDIR_INT := ⟨4, 144, zeroBuff⟩

/-! ## Helper lemmas -/

/-- `btoi` inverts `itob` on the decimal range 0-99. -/
theorem btoi_itob : ∀ n : Nat, n < 100 → btoi (itob n) = n := by decide

/-- Counting form of the path-table scan: with a non-positive requested
entry the scan never matches, so it returns one more than the number of
entries the parse walk finds, provided the fuel dominates the walk
(every step advances by at least 8 bytes). -/
theorem ptScanAux_count_aux (b : Buff) (size : Nat) (entry : Int) (he : entry ≤ 0) :
    ∀ fuel pos i, size - pos ≤ 8 * fuel →
      (ptScanAux b size entry pos i fuel).1 =
        (i : Int) + (ptOffsets b size pos fuel).length + 1 := by
  intro fuel
  induction fuel with
  | zero =>
    intro pos i h
    have hp : ¬ pos < size := by omega
    simp [ptScanAux, ptOffsets, hp, he]
  | succ f ih =>
    intro pos i h
    by_cases hp : pos < size
    · have hi : ¬ ((i : Int) = entry - 1) := by omega
      have hrec := ih (pos + sizeofPathtableEntry + 2 * ((b pos + 1) / 2)) (i + 1)
        (by simp only [sizeofPathtableEntry]; omega)
      simp only [ptScanAux, ptOffsets, hp, if_true, hi, if_false, ite_true, ite_false,
        List.length_cons, hrec]
      push_cast
      ring
    · simp [ptScanAux, ptOffsets, hp, he]

/-- The scan callback never completes with success when no sector among
the first 512 deliveries carries the volume-descriptor magic and no disk
error is injected. -/
theorem scanAux_all_miss (sectors : Nat → Buff)
    (h : ∀ k, k < 512 → isVolumeDescriptorSector (sectors k) = false) :
    ∀ fuel count, count < 512 → scanAux sectors none count fuel = false := by
  intro fuel
  induction fuel with
  | zero => intro count _; rfl
  | succ f ih =>
    intro count hc
    by_cases h512 : 512 ≤ count + 1
    · simp [scanAux, h count hc, h512]
    · simp only [scanAux, h count hc]
      simpa [h512] using ih (count + 1) (by omega)

/-! ## Claim theorems -/

/-- C6: for every linear sector address `x` in the disc's addressable range
(the BCD minute field holds two decimal digits, so `x + 150 < 450000`),
converting to BCD minute/second/sector coordinates with `CdIntToPos`
(which adds the 150-sector lead-in) and back with `CdPosToInt` yields
`x` again. -/
theorem cdPosToInt_cdIntToPos_roundtrip (x : Nat) (h : x + 150 < 450000) :
    CdPosToInt (CdIntToPos x) = (x : Int) := by
  have h1 : (x + 150) / 4500 < 100 := by omega
  have h2 : (x + 150) / 75 % 60 < 100 := by omega
  have h3 : (x + 150) % 75 < 100 := by omega
  simp only [CdIntToPos, CdPosToInt]
  rw [btoi_itob _ h1, btoi_itob _ h2, btoi_itob _ h3]
  have h4 : (x + 150) / 4500 * 4500 + (x + 150) / 75 % 60 * 75 + (x + 150) % 75 = x + 150 := by
    omega
  omega

/-- Witness for C6 at the concrete address 1000. -/
theorem cdPosToInt_cdIntToPos_roundtrip_witness :
    1000 + 150 < 450000 ∧ CdPosToInt (CdIntToPos 1000) = (1000 : Int) :=
  ⟨by decide, cdPosToInt_cdIntToPos_roundtrip 1000 (by decide)⟩

/-- C7 (amended): calling `get_pathtable_entry` with a non-positive entry
number returns one MORE than the number of entries present in the cached
path table (the return value serves the callers as an exclusive upper
bound for the 1-indexed entry numbers); no entry data is produced. -/
theorem pathtable_count_plus_one (st : FsState) (entry : Int) (he : entry ≤ 0) :
    (get_pathtable_entry st entry).1 = ((pathTableEntryOffsets st).length : Int) + 1 := by
  have h := ptScanAux_count_aux (ptBuffOf st) (ptSizeOf st) entry he (ptSizeOf st) 0 0
    (by omega)
  simpa [get_pathtable_entry, pathTableEntryOffsets] using h

/-- Witness for C7's amended theorem at a concrete two-entry table. -/
theorem pathtable_count_plus_one_witness :
    (0 : Int) ≤ 0 ∧
      (get_pathtable_entry ⟨false, 0, pvdC1, some ptSectorC1, none, 0, .okay⟩ 0).1 =
        ((pathTableEntryOffsets ⟨false, 0, pvdC1, some ptSectorC1, none, 0, .okay⟩).length
          : Int) + 1 :=
  ⟨by decide, pathtable_count_plus_one ⟨false, 0, pvdC1, some ptSectorC1, none, 0, .okay⟩ 0
    (by decide)⟩

/-- C7 counterexample: on a cached path table holding exactly two entries
(root and "DATA"), the accessor called with entry number 0 returns 3,
not the total entry count 2 — so the claim "returns exactly the total
number of entries present" is false. -/
theorem pathtable_count_counterexample :
    (get_pathtable_entry ⟨false, 0, pvdC1, some ptSectorC1, none, 0, .okay⟩ 0).1 = 3 ∧
      (pathTableEntryOffsets ⟨false, 0, pvdC1, some ptSectorC1, none, 0, .okay⟩).length = 2 := by
  decide

/-- C8: when the cursor of `CdReadDir` sits on a zero byte (a zero-length
entry) before the directory record's declared length, the call reports
end-of-directory by returning 0 — exactly as it does when the cursor has
reached the declared length: the cursor is left in place, the caller's
`CdlFILE` is not written, and (per the signature, which returns no
state) no error is recorded. -/
theorem cdReadDir_zero_entry_end (st : FsState) (d : CdlDIR_INT) (file : CdlFILE) :
    (st.directoryLen ≤ d._pos → CdReadDir st d file = (d, file, 0)) ∧
      (d._pos < st.directoryLen → d._dir d._pos = 0 → CdReadDir st d file = (d, file, 0)) := by
  constructor
  · intro h
    unfold CdReadDir
    rw [if_pos h]
  · intro h1 h2
    unfold CdReadDir
    rw [if_neg (by omega), if_pos h2]

/-- Witness for C8: a cursor exactly at the declared length, and a cursor
strictly inside the record but on a zero byte, both end iteration. -/
theorem cdReadDir_zero_entry_end_witness :
    (stDirTen.directoryLen ≤ dAtEnd._pos ∧
      CdReadDir stDirTen dAtEnd fJunk = (dAtEnd, fJunk, 0)) ∧
      (dAtZero._pos < stDirTen.directoryLen ∧ dAtZero._dir dAtZero._pos = 0 ∧
        CdReadDir stDirTen dAtZero fJunk = (dAtZero, fJunk, 0)) :=
  ⟨⟨by decide, (cdReadDir_zero_entry_end stDirTen dAtEnd fJunk).1 (by decide)⟩,
    ⟨by decide, rfl, (cdReadDir_zero_entry_end stDirTen dAtZero fJunk).2 (by decide) rfl⟩⟩

/-- C10: calling `CdCloseDir` with a null directory handle is a safe no-op:
the state is returned untouched and zero `free` calls are issued. -/
theorem cdCloseDir_null_noop (st : FsState) : CdCloseDir st none = (st, 0) := rfl

/-- C4: with the media-changed flag set, the next descriptor-cache call
performs exactly one volume-descriptor read and one path-table batch
read, succeeds and clears the flag; and any call made with the flag
clear and the lid closed returns success immediately, with zero
descriptor and zero path-table reads and the state untouched. -/
theorem descriptor_reload_exactly_once (drv : DescDrive) (st : FsState) (offs : Int) :
    (st.mediaChanged = true → drv.seekDescOk = true → drv.readDescOk = true →
      drv.readPathOk = true → descMagicOk (readSectors drv.disc (16 + offs)) = true →
      ((_CdReadIsoDescriptor drv st offs).descReads = 1 ∧
        (_CdReadIsoDescriptor drv st offs).ptReads = 1 ∧
        (_CdReadIsoDescriptor drv st offs).ret = 0 ∧
        (_CdReadIsoDescriptor drv st offs).st.mediaChanged = false)) ∧
      (st.mediaChanged = false → drv.shellOpenSticky = false →
        _CdReadIsoDescriptor drv st offs = ⟨st, 0, 0, 0⟩) := by
  constructor
  · intro hm hs hr hp hmagic
    simp [_CdReadIsoDescriptor, hm, hs, hr, hp, hmagic]
  · intro hm hs
    simp [_CdReadIsoDescriptor, hm, hs]

/-- Witness for C4: over the scenario disc, a fresh state (flag set)
reloads exactly once, and a warm state (flag clear, lid closed) is a
pure cache hit. -/
theorem descriptor_reload_exactly_once_witness :
    (st0.mediaChanged = true ∧ drvDc1.seekDescOk = true ∧ drvDc1.readDescOk = true ∧
      drvDc1.readPathOk = true ∧ descMagicOk (readSectors drvDc1.disc (16 + 0)) = true ∧
      (_CdReadIsoDescriptor drvDc1 st0 0).descReads = 1 ∧
      (_CdReadIsoDescriptor drvDc1 st0 0).ptReads = 1 ∧
      (_CdReadIsoDescriptor drvDc1 st0 0).ret = 0 ∧
      (_CdReadIsoDescriptor drvDc1 st0 0).st.mediaChanged = false) ∧
      (stClear.mediaChanged = false ∧ drvDc1.shellOpenSticky = false ∧
        _CdReadIsoDescriptor drvDc1 stClear 0 = ⟨stClear, 0, 0, 0⟩) := by
  have ha := (descriptor_reload_exactly_once drvDc1 st0 0).1 rfl rfl rfl rfl (by decide)
  have hb := (descriptor_reload_exactly_once drvDc1 stClear 0).2 rfl rfl
  exact ⟨⟨rfl, rfl, rfl, rfl, by decide, ha.1, ha.2.1, ha.2.2.1, ha.2.2.2⟩, ⟨rfl, rfl, hb⟩⟩

/-- C5 (amended): the lid check runs only when the media-changed flag is
clear.  In that case, when the sticky shell-open bit persists across the
two no-op commands, the descriptor load fails with the `lidOpen` error
code before any reload decision, leaving the descriptor buffer,
path-table buffer and directory cache unmodified.  (When the flag is
already set, the source performs no lid check at all and the reload
proceeds regardless of the lid — see the counterexample.) -/
theorem lid_open_flag_clear_semantics (drv : DescDrive) (st : FsState) (offs : Int)
    (h1 : st.mediaChanged = false) (h2 : drv.shellOpenSticky = true)
    (h3 : drv.lidStillOpen = true) :
    _CdReadIsoDescriptor drv st offs = ⟨{ st with isoError := .lidOpen }, -1, 0, 0⟩ := by
  unfold _CdReadIsoDescriptor
  rw [if_pos ⟨h1, h2, h3⟩]

/-- Witness for C5's amended theorem: flag clear, lid open, over the
scenario disc. -/
theorem lid_open_flag_clear_semantics_witness :
    stClear.mediaChanged = false ∧ drvLidOpen.shellOpenSticky = true ∧
      drvLidOpen.lidStillOpen = true ∧
      _CdReadIsoDescriptor drvLidOpen stClear 0 =
        ⟨{ stClear with isoError := .lidOpen }, -1, 0, 0⟩ :=
  ⟨rfl, rfl, rfl, lid_open_flag_clear_semantics drvLidOpen stClear 0 rfl rfl rfl⟩

/-- C5 counterexample: with the media-changed flag already set and the lid
open (sticky bit persisting across both no-ops), the descriptor load
does NOT fail with `lidOpen` — it skips the lid check entirely and
reloads successfully from the disc, refuting "whenever the
descriptor-load operation runs while the disc lid is open ... it fails
with the LidOpen error code". -/
theorem lid_open_with_flag_set_counterexample :
    st0.mediaChanged = true ∧ drvLidOpen.shellOpenSticky = true ∧
      drvLidOpen.lidStillOpen = true ∧
      (_CdReadIsoDescriptor drvLidOpen st0 0).ret = 0 ∧
      (_CdReadIsoDescriptor drvLidOpen st0 0).st.isoError ≠ CdlIsoError.lidOpen := by
  decide

/-- A request for the directory recorded in the "last loaded" marker is a
cache hit: the state is returned untouched with zero reads. -/
theorem cdReadIsoDirectory_hit (drv : DirDrive) (st : FsState) (lba : Nat)
    (h : lba = st.lastDirLba) : _CdReadIsoDirectory drv st lba = ⟨st, 0, 0⟩ := by
  unfold _CdReadIsoDirectory
  rw [if_pos h]

/-- C3 (amended): when `_CdReadIsoDirectory(lba)` fails on a seek or read
step, the "last loaded directory" marker retains its previous value --
it is neither set to `lba` nor cleared.  Consequently the failed
directory itself is not considered cached (its lba differs from the
marker, forcing a fresh load on retry), but the previously cached
directory is still considered cached: a subsequent request for it is
served as a cache hit with zero reads.  The marker equals `lba` after
the call only when the call returned success. -/
theorem cdReadIsoDirectory_marker_semantics (drv : DirDrive) (st : FsState) (lba : Nat) :
    ((_CdReadIsoDirectory drv st lba).ret ≠ 0 →
      ((_CdReadIsoDirectory drv st lba).st.lastDirLba = st.lastDirLba ∧
        lba ≠ st.lastDirLba ∧
        (∀ drv2 : DirDrive,
          _CdReadIsoDirectory drv2 (_CdReadIsoDirectory drv st lba).st st.lastDirLba =
            ⟨(_CdReadIsoDirectory drv st lba).st, 0, 0⟩))) ∧
      ((_CdReadIsoDirectory drv st lba).st.lastDirLba = lba →
        (_CdReadIsoDirectory drv st lba).ret = 0) := by
  by_cases h1 : lba = st.lastDirLba
  · rw [cdReadIsoDirectory_hit drv st lba h1]
    exact ⟨fun hr => absurd rfl hr, fun _ => rfl⟩
  · have main :
        ((_CdReadIsoDirectory drv st lba).ret = 0 ∧
          (_CdReadIsoDirectory drv st lba).st.lastDirLba = lba) ∨
        ((_CdReadIsoDirectory drv st lba).ret = -1 ∧
          (_CdReadIsoDirectory drv st lba).st.lastDirLba = st.lastDirLba) := by
      cases hs1 : drv.seek1Ok with
      | false =>
        right
        constructor <;> simp [_CdReadIsoDirectory, h1, hs1]
      | true =>
        cases hr1 : drv.read1Ok with
        | false =>
          right
          constructor <;> simp [_CdReadIsoDirectory, h1, hs1, hr1]
        | true =>
          by_cases hlen : 2048 < le32 (readSectors drv.disc ((lba : Nat) : Int)) 10
          · cases hs2 : drv.seek2Ok with
            | false =>
              right
              constructor <;> simp [_CdReadIsoDirectory, h1, hs1, hr1, hlen, hs2]
            | true =>
              cases hr2 : drv.read2Ok with
              | false =>
                right
                constructor <;> simp [_CdReadIsoDirectory, h1, hs1, hr1, hlen, hs2, hr2]
              | true =>
                left
                constructor <;> simp [_CdReadIsoDirectory, h1, hs1, hr1, hlen, hs2, hr2]
          · left
            constructor <;> simp [_CdReadIsoDirectory, h1, hs1, hr1, hlen]
    rcases main with ⟨hr0, _⟩ | ⟨_, hmark⟩
    · exact ⟨fun hr => absurd hr0 hr, fun _ => hr0⟩
    · refine ⟨fun _ => ⟨hmark, h1, fun drv2 =>
        cdReadIsoDirectory_hit drv2 _ _ hmark.symm⟩, fun hm => ?_⟩
      rw [hmark] at hm
      exact absurd hm.symm h1

/-- Witness for C3's amended theorem: a failing load of directory 200 while
directory 100 is cached leaves the marker at 100. -/
theorem cdReadIsoDirectory_marker_semantics_witness :
    (_CdReadIsoDirectory drvDirSeekFail stCached 200).ret ≠ 0 ∧
      (_CdReadIsoDirectory drvDirSeekFail stCached 200).st.lastDirLba =
        stCached.lastDirLba ∧ (200 : Nat) ≠ stCached.lastDirLba :=
  have h := (cdReadIsoDirectory_marker_semantics drvDirSeekFail stCached 200).1 (by decide)
  ⟨by decide, h.1, h.2.1⟩

/-- C3 counterexample: directory 100 is cached; loading directory 200 fails
at the seek, yet the marker still reads 100, and the very next request
for directory 100 is served as a cache hit (return 0, zero reads) — not
the fresh load the claim requires for "any directory — including ... the
one previously cached". -/
theorem cdReadIsoDirectory_marker_counterexample :
    (_CdReadIsoDirectory drvDirSeekFail stCached 200).ret = -1 ∧
      (_CdReadIsoDirectory drvDirSeekFail stCached 200).st.lastDirLba = 100 ∧
      (_CdReadIsoDirectory drvDira (_CdReadIsoDirectory drvDirSeekFail stCached 200).st
        100).ret = 0 ∧
      (_CdReadIsoDirectory drvDira (_CdReadIsoDirectory drvDirSeekFail stCached 200).st
        100).reads = 0 := by
  decide

/-- C9: when `CdLoadSession`'s scan examines 512 sectors without finding
the ISO volume-descriptor magic (and no disk error interrupts it), the
function returns -1 with the filesystem error code set to `invalidFs`,
and the previously cached volume descriptor, path-table buffer and
directory cache are left exactly as they were (the result state differs
from the input state in the error field only). -/
theorem cdLoadSession_scan_not_found (drv : SessionDrive) (st : FsState) (session : Int)
    (h1 : drv.seekDiskError = false) (h2 : drv.scanErrAt = none)
    (h3 : ∀ k, k < 512 → isVolumeDescriptorSector (drv.scanSectors k) = false) :
    CdLoadSession drv st session = ({ st with isoError := .invalidFs }, -1) := by
  have hs : scanAux drv.scanSectors drv.scanErrAt 0 512 = false := by
    rw [h2]
    exact scanAux_all_miss _ h3 512 0 (by omega)
  simp [CdLoadSession, h1, hs]

set_option maxRecDepth 4096 in
/-- Witness for C9: a scan that only ever sees zero-filled sectors. -/
theorem cdLoadSession_scan_not_found_witness :
    sesDrv.seekDiskError = false ∧ sesDrv.scanErrAt = none ∧
      (∀ k, k < 512 → isVolumeDescriptorSector (sesDrv.scanSectors k) = false) ∧
      CdLoadSession sesDrv st0 2 = ({ st0 with isoError := .invalidFs }, -1) :=
  ⟨rfl, rfl, by decide, cdLoadSession_scan_not_found sesDrv st0 2 rfl rfl (by decide)⟩

/-- C1: on the scenario disc (path table with the single non-root entry
"DATA" whose record at sector 20 contains "LEVEL1.BIN;1" at sector 25
with size 4096), `CdSearchFile(fp, "DATA/LEVEL1.BIN")` does NOT succeed:
it returns NULL, because the path-table paths are reconstructed with a
leading backslash and backslash separators and compared verbatim against
the caller's unnormalized prefix "DATA".  The same call with
"\DATA\LEVEL1.BIN" succeeds and fills the `CdlFILE` with exactly the
claimed position `CdIntToPos 25`, size 4096 and name "LEVEL1.BIN;1"
(the ";1" appended automatically). -/
theorem cdSearchFile_slash_scenario :
    (CdSearchFile drvDc1 drvDirc1 st0 nameC1slash).map (fun r => r.2) = some none ∧
      (CdSearchFile drvDc1 drvDirc1 st0 nameC1back).map (fun r => r.2) =
        some (some ⟨CdIntToPos 25, 4096, nameLEVEL1v⟩) := by
  decide

/-- C2: the sequence a directory cursor yields is NOT independent of the
shared directory cache.  A cursor opened on "\DATA" (snapshot length
144) and advanced past "." and ".." to byte 96 yields one more entry
(return 1) while the cache still holds DATA; after an intervening
`CdSearchFile("\SUB\X.BIN")` repoints the shared cache to SUB (declared
length 89), the very same cursor reports end-of-directory (return 0),
because `CdReadDir` bounds the iteration with the shared
`_cd_iso_directory_len` instead of the cursor's private `_len`. -/
theorem cdReadDir_depends_on_shared_cache :
    cur2._pos = 96 ∧ cur2._len = 144 ∧
      (CdSearchFile drvDa drvDira stOpen nameSUBX).map
          (fun r => (r.2, r.1.directoryLen)) =
        some (some ⟨CdIntToPos 30, 512, fileXname⟩, 89) ∧
      (CdReadDir stOpen cur2 fJunk).2.2 = 1 ∧
      (CdReadDir stRepoint cur2 fJunk).2.2 = 0 := by
  decide

end PSBW

